import Mathlib

/-!
# Verification of the Sentinel "ML Behavior Analytics" alert rule reconciler

Shallow embedding of
`azurerm/internal/services/sentinel/azurerm_sentinel_alert_rule_machine_learning_behavior_analytics.go`:
the data model, the CRUD reconciler operations and the declarative schema,
together with theorems settling the specification's claims about them.

Remote calls are modelled by passing the response the remote collection
would give as an explicit argument, and each operation returns the list of
remote calls it issued, so that "performs no write" and call-count
properties are statable.
-/

namespace SentinelMLBA

/-! ## Identifiers -/

/-- `parse.AlertRuleId`: composite identifier of an alert rule
(subscription, resource group, workspace name, rule name). -/
structure AlertRuleId where
  subscriptionId : String
  resourceGroup : String
  workspaceName : String
  name : String
deriving DecidableEq, Repr

/-- `parse.NewAlertRuleID`. -/
def NewAlertRuleID (sub rg ws n : String) : AlertRuleId :=
  ⟨sub, rg, ws, n⟩

/-- `loganalytics/parse.LogAnalyticsWorkspaceId`: composite identifier of a
Log Analytics workspace. -/
structure LogAnalyticsWorkspaceId where
  subscriptionId : String
  resourceGroup : String
  workspaceName : String
deriving DecidableEq, Repr

/-- `loganalytics/parse.NewLogAnalyticsWorkspaceID`. -/
def NewLogAnalyticsWorkspaceID (sub rg ws : String) : LogAnalyticsWorkspaceId :=
  ⟨sub, rg, ws⟩

/-- Modelled from the spec: the opaque encoded string form of a rule
identifier ("opaque string identifier constructed from
subscription/resource-group/workspace/name, parsed back via a dedicated
parsing routine"). The encoding is opaque, so it is modelled as either the
empty string (the cleared state marker written by `d.SetId("")`), a
well-formed encoding of an `AlertRuleId`, or a malformed string. -/
inductive RuleIdString where
  | empty : RuleIdString
  | valid (id : AlertRuleId) : RuleIdString
  | malformed (s : String) : RuleIdString
deriving DecidableEq, Repr

/-- Modelled from the spec: `AlertRuleId.ID()`, producing the canonical
encoded identifier string. -/
def AlertRuleId.ID (x : AlertRuleId) : RuleIdString :=
  .valid x

/-- Modelled from the spec: `parse.AlertRuleID`, the dedicated routine
recovering the composite identifier from its opaque string form; fails on
anything that is not a well-formed encoding. -/
def parseAlertRuleID : RuleIdString → Except String AlertRuleId
  | .empty => .error "parsing empty alert rule id"
  | .valid id => .ok id
  | .malformed s => .error ("parsing alert rule id: " ++ s)

/-- Modelled from the spec: the opaque encoded string form of a Log
Analytics workspace identifier. -/
inductive WorkspaceIdString where
  | valid (w : LogAnalyticsWorkspaceId) : WorkspaceIdString
  | malformed (s : String) : WorkspaceIdString
deriving DecidableEq, Repr

/-- Modelled from the spec: `LogAnalyticsWorkspaceId.ID()`. -/
def LogAnalyticsWorkspaceId.ID (w : LogAnalyticsWorkspaceId) : WorkspaceIdString :=
  .valid w

/-- Modelled from the spec: `loganalyticsParse.LogAnalyticsWorkspaceID`,
validating and parsing the workspace identifier string. -/
def LogAnalyticsWorkspaceID : WorkspaceIdString → Except String LogAnalyticsWorkspaceId
  | .valid w => .ok w
  | .malformed s => .error ("parsing log analytics workspace id: " ++ s)

/-- Modelled from the spec: the fixed resource provider constant
`OperationalInsightsResourceProvider` passed to every remote call. -/
def OperationalInsightsResourceProvider : String :=
  "Microsoft.OperationalInsights"

/-! ## SDK data model (`securityinsight`) -/

/-- The `kind` discriminant of the polymorphic alert rule collection. -/
inductive AlertRuleKind where
  | mlBehaviorAnalytics
  | fusion
  | scheduled
  | microsoftSecurityIncidentCreation
deriving DecidableEq, Repr

/-- `securityinsight.MLBehaviorAnalyticsAlertRuleProperties`. -/
structure MLBehaviorAnalyticsAlertRuleProperties where
  alertRuleTemplateName : Option String
  enabled : Option Bool
deriving DecidableEq, Repr

/-- `securityinsight.MLBehaviorAnalyticsAlertRule` (its `Kind` field is fixed
to `KindMLBehaviorAnalytics` by the SDK; here the variant of
`BasicAlertRule` carries the discriminant). -/
structure MLBehaviorAnalyticsAlertRule where
  etag : Option String
  id : Option String
  properties : Option MLBehaviorAnalyticsAlertRuleProperties
deriving DecidableEq, Repr

/-- `securityinsight.BasicAlertRule`: a rule of the polymorphic collection,
either the ML Behavior Analytics variant or a rule of a different kind
(whose further payload is irrelevant here beyond its resource id and etag). -/
inductive BasicAlertRule where
  | ml (r : MLBehaviorAnalyticsAlertRule)
  | other (kind : AlertRuleKind) (id : Option String) (etag : Option String)
deriving DecidableEq, Repr

/-- The discriminant of a polymorphic rule. -/
def BasicAlertRule.kind : BasicAlertRule → AlertRuleKind
  | .ml _ => .mlBehaviorAnalytics
  | .other k _ _ => k

/-- The `ID` field of a polymorphic rule (the Azure resource id string). -/
def BasicAlertRule.ruleId : BasicAlertRule → Option String
  | .ml r => r.id
  | .other _ i _ => i

/-- The Go type assertion `resp.Value.(securityinsight.MLBehaviorAnalyticsAlertRule)`;
only executed after the kind discriminant has been asserted, in which case
the rule is the `ml` variant. -/
def BasicAlertRule.asML : BasicAlertRule → MLBehaviorAnalyticsAlertRule
  | .ml r => r
  | .other _ i e => ⟨e, i, none⟩

/-- Modelled from the spec: `alertRuleID` (sentinel helper, not in the
supplied file), extracting the resource id string of a possibly absent
rule value, `nil`-safe. -/
def alertRuleID : Option BasicAlertRule → Option String
  | none => none
  | some r => r.ruleId

/-- Modelled from the spec: `assertAlertRuleKind` (sentinel helper, not in
the supplied file): "asserts its discriminant matches the expected variant
(fails if the remote rule is a different kind)". -/
def assertAlertRuleKind (rule : BasicAlertRule) (k : AlertRuleKind) : Except String Unit :=
  if rule.kind = k then .ok () else .error "alert rule kind mismatch"

/-! ## Remote call model -/

/-- Outcome of a remote `Get`: the error cases distinguish the response
flagged 404 (`utils.ResponseWasNotFound`) from any other failure; `ok`
carries the polymorphic rule value. -/
inductive GetResult where
  | notFound (msg : String)
  | errOther (msg : String)
  | ok (rule : BasicAlertRule)
deriving DecidableEq, Repr

/-- The `resp.Value` visible after a `Get`, also in the 404 error case
(where the value is absent). -/
def GetResult.value : GetResult → Option BasicAlertRule
  | .ok r => some r
  | _ => none

/-- A remote call issued through the `AlertRulesClient`. -/
inductive RemoteCall where
  | get (resourceGroup provider workspaceName ruleName : String)
  | createOrUpdate (resourceGroup provider workspaceName ruleName : String)
      (params : MLBehaviorAnalyticsAlertRule)
  | delete (resourceGroup provider workspaceName ruleName : String)
deriving DecidableEq, Repr

/-- Whether a remote call is a `CreateOrUpdate` write. -/
def RemoteCall.isWrite : RemoteCall → Bool
  | .createOrUpdate _ _ _ _ _ => true
  | _ => false

/-! ## Errors -/

/-- The errors an operation can return: an identifier-parse error passed
through unwrapped (`return err`), a failure wrapped by `fmt.Errorf` with a
human-readable operation description and the rule identifier, or the
`tf.ImportAsExistsError` conflict ("already exists") with the resource type
name and the existing resource id. -/
inductive ProviderError where
  | parsePassthrough (msg : String)
  | wrapped (opDesc : String) (id : AlertRuleId) (inner : String)
  | importAsExists (resourceType : String) (existingId : String)
deriving DecidableEq, Repr

/-- An error that carries a human-readable description together with an
identifier (everything except a pass-through parse error). -/
def ProviderError.describedWithId : ProviderError → Bool
  | .parsePassthrough _ => false
  | .wrapped _ _ _ => true
  | .importAsExists _ _ => true

/-! ## Declarative state -/

/-- The `schema.ResourceData` fields of this resource: the persisted
identifier plus the declarative schema fields. -/
structure State where
  id : RuleIdString
  name : String
  logAnalyticsWorkspaceId : WorkspaceIdString
  alertRuleTemplateGuid : String
  enabled : Bool
deriving DecidableEq, Repr

/-- Result of running one operation: the resource data as left by the
operation, the returned error (if any), and the remote calls issued. -/
structure OpResult where
  d : State
  err : Option ProviderError
  calls : List RemoteCall
deriving DecidableEq, Repr

/-! ## Operations -/

/-- The resource type name used in the `ImportAsExistsError`. -/
def resourceTypeName : String :=
  "azurerm_sentinel_alert_rule_machine_learning_behavior_analytics"

/-- `resourceSentinelAlertRuleMLBehaviorAnalyticsRead`.
`getResp` is the response the remote collection gives to the single `Get`
this operation issues (ignored when the stored identifier fails to parse,
in which case no call is made). -/
def resourceRead (d : State) (getResp : GetResult) : OpResult :=
  match parseAlertRuleID d.id with
  | .error msg => ⟨d, some (.parsePassthrough msg), []⟩
  | .ok id =>
    let getCall := RemoteCall.get id.resourceGroup OperationalInsightsResourceProvider
      id.workspaceName id.name
    match getResp with
    | .notFound _ => ⟨{ d with id := .empty }, none, [getCall]⟩
    | .errOther msg =>
      ⟨d, some (.wrapped "retrieving Sentinel Alert Rule MLBehaviorAnalytics" id msg), [getCall]⟩
    | .ok rule =>
      match assertAlertRuleKind rule .mlBehaviorAnalytics with
      | .error msg => ⟨d, some (.wrapped "asserting alert rule of" id msg), [getCall]⟩
      | .ok _ =>
        let r := rule.asML
        let d₁ : State :=
          { d with
            name := id.name
            logAnalyticsWorkspaceId :=
              (NewLogAnalyticsWorkspaceID id.subscriptionId id.resourceGroup id.workspaceName).ID }
        let d₂ : State :=
          match r.properties with
          | some prop =>
            { d₁ with
              enabled := prop.enabled.getD false
              alertRuleTemplateGuid := prop.alertRuleTemplateName.getD "" }
          | none => d₁
        ⟨d₂, none, [getCall]⟩

/-- `resourceSentinelAlertRuleMLBehaviorAnalyticsCreateUpdate`.
`isNew` is `d.IsNewResource()`; `getResp` is the response to the one `Get`
the operation issues (the existence probe when `isNew`, the etag refetch
otherwise); `cuErr` is the outcome of the `CreateOrUpdate` call; and
`readGetResp` is the response seen by the delegated final `Read`. -/
def resourceCreateUpdate (d : State) (isNew : Bool) (getResp : GetResult)
    (cuErr : Option String) (readGetResp : GetResult) : OpResult :=
  match LogAnalyticsWorkspaceID d.logAnalyticsWorkspaceId with
  | .error msg => ⟨d, some (.parsePassthrough msg), []⟩
  | .ok workspaceID =>
    let id := NewAlertRuleID workspaceID.subscriptionId workspaceID.resourceGroup
      workspaceID.workspaceName d.name
    let getCall := RemoteCall.get workspaceID.resourceGroup
      OperationalInsightsResourceProvider workspaceID.workspaceName d.name
    let probe : Option (Option ProviderError) :=
      if isNew then
        match getResp with
        | .errOther msg =>
          some (some (.wrapped "checking for existing Sentinel Alert Rule MLBehaviorAnalytics"
            id msg))
        | _ =>
          match alertRuleID getResp.value with
          | some s => if s ≠ "" then some (some (.importAsExists resourceTypeName s)) else none
          | none => none
      else none
    match probe with
    | some e => ⟨d, e, [getCall]⟩
    | none =>
      let params : MLBehaviorAnalyticsAlertRule :=
        { etag := none
          id := none
          properties := some
            { alertRuleTemplateName := some d.alertRuleTemplateGuid
              enabled := some d.enabled } }
      let withEtag : Except ProviderError MLBehaviorAnalyticsAlertRule :=
        if isNew then .ok params
        else
          match getResp with
          | .notFound msg =>
            .error (.wrapped "retrieving Sentinel Alert Rule MLBehaviorAnalytics" id msg)
          | .errOther msg =>
            .error (.wrapped "retrieving Sentinel Alert Rule MLBehaviorAnalytics" id msg)
          | .ok rule =>
            match assertAlertRuleKind rule .mlBehaviorAnalytics with
            | .error msg => .error (.wrapped "asserting alert rule of" id msg)
            | .ok _ => .ok { params with etag := rule.asML.etag }
      match withEtag with
      | .error e => ⟨d, some e, [getCall]⟩
      | .ok params =>
        let cuCall := RemoteCall.createOrUpdate workspaceID.resourceGroup
          OperationalInsightsResourceProvider workspaceID.workspaceName d.name params
        match cuErr with
        | some msg =>
          ⟨d, some (.wrapped "creating Sentinel Alert Rule MLBehaviorAnalytics" id msg),
            [getCall, cuCall]⟩
        | none =>
          let d' : State := { d with id := id.ID }
          let readResult := resourceRead d' readGetResp
          ⟨readResult.d, readResult.err, getCall :: cuCall :: readResult.calls⟩

/-- `resourceSentinelAlertRuleMLBehaviorAnalyticsDelete`.
`deleteErr` is the outcome of the remote `Delete` call. -/
def resourceDelete (d : State) (deleteErr : Option String) : OpResult :=
  match parseAlertRuleID d.id with
  | .error msg => ⟨d, some (.parsePassthrough msg), []⟩
  | .ok id =>
    let call := RemoteCall.delete id.resourceGroup OperationalInsightsResourceProvider
      id.workspaceName id.name
    match deleteErr with
    | some msg =>
      ⟨d, some (.wrapped "deleting Sentinel Alert Rule MLBehaviorAnalytics" id msg), [call]⟩
    | none => ⟨d, none, [call]⟩

/-! ## Declarative schema and timeouts -/

/-- Go `time.Minute` in nanoseconds. -/
def timeMinute : Nat := 60 * 1000000000

/-- `schema.ResourceTimeout` durations (nanoseconds), one per operation. -/
structure ResourceTimeout where
  create : Nat
  read : Nat
  update : Nat
  delete : Nat
deriving DecidableEq, Repr

/-- The `Timeouts` block of the resource. -/
def resourceTimeouts : ResourceTimeout :=
  { create := 30 * timeMinute
    read := 5 * timeMinute
    update := 30 * timeMinute
    delete := 30 * timeMinute }

/-- The value type of a schema field. -/
inductive SchemaValueType where
  | typeString
  | typeBool
deriving DecidableEq, Repr

/-- The validation function attached to a schema field. -/
inductive ValidateFunc where
  | stringIsNotEmpty
  | logAnalyticsWorkspaceID
  | isUUID
deriving DecidableEq, Repr

/-- The attributes of one schema field. -/
structure SchemaField where
  type : SchemaValueType
  required : Bool
  optional : Bool
  forceNew : Bool
  defaultBool : Option Bool
  validateFunc : Option ValidateFunc
deriving DecidableEq, Repr

/-- The `Schema` map of the resource, as an association list. -/
def resourceSchema : List (String × SchemaField) :=
  [ ("name",
      { type := .typeString, required := true, optional := false, forceNew := true
        defaultBool := none, validateFunc := some .stringIsNotEmpty }),
    ("log_analytics_workspace_id",
      { type := .typeString, required := true, optional := false, forceNew := true
        defaultBool := none, validateFunc := some .logAnalyticsWorkspaceID }),
    ("alert_rule_template_guid",
      { type := .typeString, required := true, optional := false, forceNew := true
        defaultBool := none, validateFunc := some .isUUID }),
    ("enabled",
      { type := .typeBool, required := false, optional := true, forceNew := false
        defaultBool := some true, validateFunc := none }) ]

/-! ## Helper lemmas -/

/-- Characterization of `resourceRead` on a successful fetch of the ML
variant, given a stored identifier that parses. -/
theorem resourceRead_ok_ml (d : State) (id : AlertRuleId)
    (r : MLBehaviorAnalyticsAlertRule) (h : parseAlertRuleID d.id = .ok id) :
    resourceRead d (.ok (.ml r)) =
      ⟨{ d with
          name := id.name
          logAnalyticsWorkspaceId :=
            (NewLogAnalyticsWorkspaceID id.subscriptionId id.resourceGroup id.workspaceName).ID
          enabled := match r.properties with
            | some prop => prop.enabled.getD false
            | none => d.enabled
          alertRuleTemplateGuid := match r.properties with
            | some prop => prop.alertRuleTemplateName.getD ""
            | none => d.alertRuleTemplateGuid },
        none,
        [RemoteCall.get id.resourceGroup OperationalInsightsResourceProvider
          id.workspaceName id.name]⟩ := by
  unfold resourceRead
  rw [h]
  simp only [assertAlertRuleKind, BasicAlertRule.kind, BasicAlertRule.asML]
  cases hp : r.properties <;> simp [hp]

/-- Every remote call issued by `resourceRead` is a `Get`. -/
theorem resourceRead_calls_are_get (d : State) (g : GetResult) (c : RemoteCall)
    (h : c ∈ (resourceRead d g).calls) :
    ∃ rg pv ws n, c = .get rg pv ws n := by
  unfold resourceRead at h
  split at h
  · simp at h
  · split at h
    · simp at h
      exact ⟨_, _, _, _, h⟩
    · simp at h
      exact ⟨_, _, _, _, h⟩
    · split at h
      · simp at h
        exact ⟨_, _, _, _, h⟩
      · simp at h
        exact ⟨_, _, _, _, h⟩

/-- `resourceRead` issues no write and at most one remote call. -/
theorem resourceRead_calls_bound (d : State) (g : GetResult) :
    (resourceRead d g).calls.countP (·.isWrite) = 0 ∧
      (resourceRead d g).calls.length ≤ 1 := by
  unfold resourceRead
  split
  · simp
  · split
    · simp [RemoteCall.isWrite]
    · simp [RemoteCall.isWrite]
    · split
      · simp [RemoteCall.isWrite]
      · simp [RemoteCall.isWrite]

/-- Call-count bound for the tail of a successful create/update run: a
non-write call, one further call, then the delegated read's calls. -/
theorem cu_calls_bound_aux (gc : RemoteCall) (hgc : gc.isWrite = false)
    (cu : RemoteCall) (d' : State) (r : GetResult) :
    (gc :: cu :: (resourceRead d' r).calls).countP (·.isWrite) ≤ 1 ∧
      (gc :: cu :: (resourceRead d' r).calls).length ≤ 3 := by
  obtain ⟨hc, hl⟩ := resourceRead_calls_bound d' r
  constructor
  · simp [List.countP_cons, hgc, hc]
    split <;> simp
  · simp only [List.length_cons]
    omega

/-- Shape of any error returned by `resourceRead`: either the pass-through
parse error (exactly when the stored identifier fails to parse) or an error
wrapped with an operation description and the parsed identifier. -/
theorem read_err_shape (d : State) (g : GetResult) (e : ProviderError)
    (h : (resourceRead d g).err = some e) :
    (∃ m, e = .parsePassthrough m ∧ ∃ m2, parseAlertRuleID d.id = .error m2) ∨
    (∃ op i m, e = .wrapped op i m ∧ parseAlertRuleID d.id = .ok i) := by
  unfold resourceRead at h
  split at h
  · simp at h
    exact Or.inl ⟨_, h.symm, _, by assumption⟩
  · split at h
    · simp at h
    · simp at h
      exact Or.inr ⟨_, _, _, h.symm, by assumption⟩
    · split at h
      · simp at h
        exact Or.inr ⟨_, _, _, h.symm, by assumption⟩
      · simp at h

/-- Shape of any error returned by `resourceDelete`: either the
pass-through parse error (exactly when the stored identifier fails to
parse) or an error wrapped with an operation description and the parsed
identifier. -/
theorem delete_err_shape (d : State) (x : Option String) (e : ProviderError)
    (h : (resourceDelete d x).err = some e) :
    (∃ m, e = .parsePassthrough m ∧ ∃ m2, parseAlertRuleID d.id = .error m2) ∨
    (∃ op i m, e = .wrapped op i m ∧ parseAlertRuleID d.id = .ok i) := by
  unfold resourceDelete at h
  split at h
  · simp at h
    exact Or.inl ⟨_, h.symm, _, by assumption⟩
  · split at h
    · simp at h
      exact Or.inr ⟨_, _, _, h.symm, by assumption⟩
    · simp at h

/-! ## Concrete example values (used by witnesses and counterexamples) -/

/-- A concrete workspace identifier. -/
def wEx : LogAnalyticsWorkspaceId := ⟨"sub1", "rg1", "ws1"⟩

/-- A concrete resource data value. -/
def dEx : State :=
  { id := .empty
    name := "rule1"
    logAnalyticsWorkspaceId := .valid wEx
    alertRuleTemplateGuid := "11111111-2222-3333-4444-555555555555"
    enabled := false }

/-- A concrete resource data value holding a valid stored identifier. -/
def dExWithId : State :=
  { dEx with id := .valid (NewAlertRuleID "sub1" "rg1" "ws1" "rule1") }

/-- A concrete remote ML rule. -/
def ruleEx : MLBehaviorAnalyticsAlertRule :=
  { etag := some "etag1"
    id := some "resid1"
    properties := some
      { alertRuleTemplateName := some "11111111-2222-3333-4444-555555555555"
        enabled := some false } }

/-! ## Claims -/

/-- C1: on update (non-new resource), the reconciler first re-fetches the
remote rule; if the fetched rule's kind discriminant is not
MLBehaviorAnalytics, the operation fails with the kind-mismatch error and
no `CreateOrUpdate` write is performed (the only remote call is the Get). -/
theorem update_kind_mismatch_fails_without_write
    (d : State) (w : LogAnalyticsWorkspaceId) (rule : BasicAlertRule)
    (cuErr : Option String) (readGetResp : GetResult)
    (hw : d.logAnalyticsWorkspaceId = .valid w)
    (hk : rule.kind ≠ .mlBehaviorAnalytics) :
    (resourceCreateUpdate d false (.ok rule) cuErr readGetResp).err =
      some (.wrapped "asserting alert rule of"
        (NewAlertRuleID w.subscriptionId w.resourceGroup w.workspaceName d.name)
        "alert rule kind mismatch") ∧
    (resourceCreateUpdate d false (.ok rule) cuErr readGetResp).calls =
      [RemoteCall.get w.resourceGroup OperationalInsightsResourceProvider
        w.workspaceName d.name] ∧
    ∀ c ∈ (resourceCreateUpdate d false (.ok rule) cuErr readGetResp).calls,
      c.isWrite = false := by
  unfold resourceCreateUpdate
  rw [hw]
  simp [LogAnalyticsWorkspaceID, assertAlertRuleKind, hk, RemoteCall.isWrite, NewAlertRuleID]

/-- Witness for C1 at a concrete update against a Fusion-kind remote rule. -/
theorem update_kind_mismatch_fails_without_write_witness :
    (resourceCreateUpdate dEx false (.ok (.other .fusion (some "resid1") (some "e")))
      none (.notFound "nf")).err =
      some (.wrapped "asserting alert rule of" (NewAlertRuleID "sub1" "rg1" "ws1" "rule1")
        "alert rule kind mismatch") :=
  (update_kind_mismatch_fails_without_write dEx wEx
    (.other .fusion (some "resid1") (some "e")) none (.notFound "nf") rfl
    (by decide)).1

/-- C2: any `CreateOrUpdate` payload sent by the reconciler carries, on
update, exactly the etag returned by the immediately preceding `Get` of the
remote rule (never synthesized locally), and on create no etag at all. -/
theorem cu_payload_etag_from_get
    (d : State) (isNew : Bool) (getResp : GetResult) (cuErr : Option String)
    (readGetResp : GetResult) (rg pv ws n : String) (p : MLBehaviorAnalyticsAlertRule)
    (hmem : RemoteCall.createOrUpdate rg pv ws n p ∈
      (resourceCreateUpdate d isNew getResp cuErr readGetResp).calls) :
    (isNew = true → p.etag = none) ∧
    (isNew = false → ∃ rule, getResp = .ok rule ∧ p.etag = rule.asML.etag) := by
  cases hla : d.logAnalyticsWorkspaceId with
  | malformed s =>
    simp [resourceCreateUpdate, hla, LogAnalyticsWorkspaceID] at hmem
  | valid w =>
    cases isNew with
    | true =>
      refine ⟨fun _ => ?_, fun h => by simp at h⟩
      cases getResp with
      | errOther m =>
        simp [resourceCreateUpdate, hla, LogAnalyticsWorkspaceID] at hmem
      | notFound m =>
        cases cuErr with
        | some m2 =>
          simp [resourceCreateUpdate, hla, LogAnalyticsWorkspaceID, GetResult.value,
            alertRuleID] at hmem
          exact hmem.2.2.2.2 ▸ rfl
        | none =>
          simp [resourceCreateUpdate, hla, LogAnalyticsWorkspaceID, GetResult.value,
            alertRuleID] at hmem
          rcases hmem with h | h
          · exact h.2.2.2.2 ▸ rfl
          · obtain ⟨_, _, _, _, hc⟩ := resourceRead_calls_are_get _ _ _ h
            simp at hc
      | ok rule =>
        cases hrid : rule.ruleId with
        | some s =>
          by_cases hs : s = ""
          · subst hs
            cases cuErr with
            | some m2 =>
              simp [resourceCreateUpdate, hla, LogAnalyticsWorkspaceID, GetResult.value,
                alertRuleID, hrid] at hmem
              exact hmem.2.2.2.2 ▸ rfl
            | none =>
              simp [resourceCreateUpdate, hla, LogAnalyticsWorkspaceID, GetResult.value,
                alertRuleID, hrid] at hmem
              rcases hmem with h | h
              · exact h.2.2.2.2 ▸ rfl
              · obtain ⟨_, _, _, _, hc⟩ := resourceRead_calls_are_get _ _ _ h
                simp at hc
          · simp [resourceCreateUpdate, hla, LogAnalyticsWorkspaceID, GetResult.value,
              alertRuleID, hrid, hs] at hmem
        | none =>
          cases cuErr with
          | some m2 =>
            simp [resourceCreateUpdate, hla, LogAnalyticsWorkspaceID, GetResult.value,
              alertRuleID, hrid] at hmem
            exact hmem.2.2.2.2 ▸ rfl
          | none =>
            simp [resourceCreateUpdate, hla, LogAnalyticsWorkspaceID, GetResult.value,
              alertRuleID, hrid] at hmem
            rcases hmem with h | h
            · exact h.2.2.2.2 ▸ rfl
            · obtain ⟨_, _, _, _, hc⟩ := resourceRead_calls_are_get _ _ _ h
              simp at hc
    | false =>
      refine ⟨fun h => by simp at h, fun _ => ?_⟩
      cases getResp with
      | notFound m =>
        simp [resourceCreateUpdate, hla, LogAnalyticsWorkspaceID] at hmem
      | errOther m =>
        simp [resourceCreateUpdate, hla, LogAnalyticsWorkspaceID] at hmem
      | ok rule =>
        refine ⟨rule, rfl, ?_⟩
        cases hak : assertAlertRuleKind rule .mlBehaviorAnalytics with
        | error m =>
          simp [resourceCreateUpdate, hla, LogAnalyticsWorkspaceID, hak] at hmem
        | ok u =>
          cases cuErr with
          | some m2 =>
            simp [resourceCreateUpdate, hla, LogAnalyticsWorkspaceID, hak] at hmem
            exact hmem.2.2.2.2 ▸ rfl
          | none =>
            simp [resourceCreateUpdate, hla, LogAnalyticsWorkspaceID, hak] at hmem
            rcases hmem with h | h
            · exact h.2.2.2.2 ▸ rfl
            · obtain ⟨_, _, _, _, hc⟩ := resourceRead_calls_are_get _ _ _ h
              simp at hc

/-- The concrete `CreateOrUpdate` payload of an update run against `dEx`
whose refetch returned `ruleEx`. -/
def paramsEx : MLBehaviorAnalyticsAlertRule :=
  { etag := some "etag1"
    id := none
    properties := some
      { alertRuleTemplateName := some "11111111-2222-3333-4444-555555555555"
        enabled := some false } }

/-- Witness for C2 at a concrete update: the payload's etag is the one the
refetch returned. -/
theorem cu_payload_etag_from_get_witness :
    (true = false → paramsEx.etag = none) ∧
    (false = false → ∃ rule, (GetResult.ok (.ml ruleEx)) = .ok rule ∧
      paramsEx.etag = rule.asML.etag) := by
  have h := cu_payload_etag_from_get dEx false (.ok (.ml ruleEx)) none (.ok (.ml ruleEx))
    "rg1" OperationalInsightsResourceProvider "ws1" "rule1" paramsEx (by decide)
  exact ⟨fun hf => by simp at hf, fun _ => h.2 rfl⟩

/-- C3: a create whose pre-create probe resolves to an existing rule (a
present, non-empty rule identifier in the response) fails with the
"already exists" conflict error and performs no write; a not-found probe
response is safe to proceed (the write is reached). -/
theorem create_probe_conflict_or_proceed :
    (∀ (d : State) (w : LogAnalyticsWorkspaceId) (rule : BasicAlertRule) (s : String)
        (cuErr : Option String) (readGetResp : GetResult),
      d.logAnalyticsWorkspaceId = .valid w →
      rule.ruleId = some s → s ≠ "" →
      (resourceCreateUpdate d true (.ok rule) cuErr readGetResp).err =
        some (.importAsExists resourceTypeName s) ∧
      ∀ c ∈ (resourceCreateUpdate d true (.ok rule) cuErr readGetResp).calls,
        c.isWrite = false) ∧
    (∀ (d : State) (w : LogAnalyticsWorkspaceId) (msg : String)
        (cuErr : Option String) (readGetResp : GetResult),
      d.logAnalyticsWorkspaceId = .valid w →
      ∃ p, RemoteCall.createOrUpdate w.resourceGroup OperationalInsightsResourceProvider
        w.workspaceName d.name p ∈
        (resourceCreateUpdate d true (.notFound msg) cuErr readGetResp).calls) := by
  constructor
  · intro d w rule s cuErr readGetResp hw hrid hs
    simp [resourceCreateUpdate, hw, LogAnalyticsWorkspaceID, GetResult.value, alertRuleID,
      hrid, hs, RemoteCall.isWrite]
  · intro d w msg cuErr readGetResp hw
    refine ⟨{ etag := none
              id := none
              properties := some
                { alertRuleTemplateName := some d.alertRuleTemplateGuid
                  enabled := some d.enabled } }, ?_⟩
    cases cuErr with
    | some m =>
      simp [resourceCreateUpdate, hw, LogAnalyticsWorkspaceID, GetResult.value,
        alertRuleID, NewAlertRuleID]
    | none =>
      simp [resourceCreateUpdate, hw, LogAnalyticsWorkspaceID, GetResult.value,
        alertRuleID, NewAlertRuleID]

/-- Witness for C3: a concrete create against an occupied identifier fails
with the conflict error, and a concrete create against a not-found probe
reaches the write. -/
theorem create_probe_conflict_or_proceed_witness :
    (resourceCreateUpdate dEx true (.ok (.ml ruleEx)) none (.notFound "nf")).err =
      some (.importAsExists resourceTypeName "resid1") ∧
    ∃ p, RemoteCall.createOrUpdate "rg1" OperationalInsightsResourceProvider "ws1" "rule1" p ∈
      (resourceCreateUpdate dEx true (.notFound "nf") none (.notFound "nf2")).calls := by
  constructor
  · exact (create_probe_conflict_or_proceed.1 dEx wEx (.ml ruleEx) "resid1" none
      (.notFound "nf") rfl (by decide) (by decide)).1
  · exact create_probe_conflict_or_proceed.2 dEx wEx "nf" none (.notFound "nf2") rfl

/-- C4: a read whose remote `Get` reports not-found clears the stored
identifier and returns no error; any other `Get` failure is returned as a
wrapped fatal error and the resource data (in particular the stored
identifier) is left unchanged. -/
theorem read_notfound_clears_state_other_failures_fatal
    (d : State) (id : AlertRuleId) (msg : String)
    (h : parseAlertRuleID d.id = .ok id) :
    ((resourceRead d (.notFound msg)).d.id = .empty ∧
      (resourceRead d (.notFound msg)).err = none) ∧
    ((resourceRead d (.errOther msg)).d = d ∧
      (resourceRead d (.errOther msg)).err =
        some (.wrapped "retrieving Sentinel Alert Rule MLBehaviorAnalytics" id msg)) := by
  unfold resourceRead
  rw [h]
  simp

/-- Witness for C4 at a concrete stored identifier. -/
theorem read_notfound_clears_state_other_failures_fatal_witness :
    ((resourceRead dExWithId (.notFound "nf")).d.id = .empty ∧
      (resourceRead dExWithId (.notFound "nf")).err = none) ∧
    ((resourceRead dExWithId (.errOther "boom")).d = dExWithId ∧
      (resourceRead dExWithId (.errOther "boom")).err =
        some (.wrapped "retrieving Sentinel Alert Rule MLBehaviorAnalytics"
          (NewAlertRuleID "sub1" "rg1" "ws1" "rule1") "boom")) :=
  read_notfound_clears_state_other_failures_fatal dExWithId
    (NewAlertRuleID "sub1" "rg1" "ws1" "rule1") "boom" rfl

/-- C5: create followed by read, with the remote returning the stored
properties, yields declarative state equal to the input (name, workspace
identifier, template GUID, and the enabled flag — also when `false`), and
the etag of the fetched rule is never projected into the declarative
state (the resulting state is invariant under changing it). -/
theorem create_read_roundtrip
    (d : State) (w : LogAnalyticsWorkspaceId) (probeMsg : String)
    (et et' rid : Option String)
    (hw : d.logAnalyticsWorkspaceId = .valid w) :
    (resourceCreateUpdate d true (.notFound probeMsg) none
        (.ok (.ml ⟨et, rid, some ⟨some d.alertRuleTemplateGuid, some d.enabled⟩⟩))).err =
      none ∧
    (resourceCreateUpdate d true (.notFound probeMsg) none
        (.ok (.ml ⟨et, rid, some ⟨some d.alertRuleTemplateGuid, some d.enabled⟩⟩))).d.name =
      d.name ∧
    (resourceCreateUpdate d true (.notFound probeMsg) none
        (.ok (.ml ⟨et, rid, some ⟨some d.alertRuleTemplateGuid,
          some d.enabled⟩⟩))).d.logAnalyticsWorkspaceId =
      d.logAnalyticsWorkspaceId ∧
    (resourceCreateUpdate d true (.notFound probeMsg) none
        (.ok (.ml ⟨et, rid, some ⟨some d.alertRuleTemplateGuid,
          some d.enabled⟩⟩))).d.alertRuleTemplateGuid =
      d.alertRuleTemplateGuid ∧
    (resourceCreateUpdate d true (.notFound probeMsg) none
        (.ok (.ml ⟨et, rid, some ⟨some d.alertRuleTemplateGuid, some d.enabled⟩⟩))).d.enabled =
      d.enabled ∧
    (resourceCreateUpdate d true (.notFound probeMsg) none
        (.ok (.ml ⟨et, rid, some ⟨some d.alertRuleTemplateGuid, some d.enabled⟩⟩))).d =
      (resourceCreateUpdate d true (.notFound probeMsg) none
        (.ok (.ml ⟨et', rid, some ⟨some d.alertRuleTemplateGuid, some d.enabled⟩⟩))).d := by
  simp [resourceCreateUpdate, resourceRead, hw, LogAnalyticsWorkspaceID, parseAlertRuleID,
    assertAlertRuleKind, alertRuleID, GetResult.value, BasicAlertRule.asML,
    BasicAlertRule.kind, NewAlertRuleID, NewLogAnalyticsWorkspaceID,
    LogAnalyticsWorkspaceId.ID, AlertRuleId.ID]

/-- Witness for C5 at a concrete create with `enabled = false`. -/
theorem create_read_roundtrip_witness :
    (resourceCreateUpdate dEx true (.notFound "nf") none
        (.ok (.ml ⟨some "etag2", some "resid1",
          some ⟨some dEx.alertRuleTemplateGuid, some dEx.enabled⟩⟩))).d.alertRuleTemplateGuid =
      dEx.alertRuleTemplateGuid ∧
    (resourceCreateUpdate dEx true (.notFound "nf") none
        (.ok (.ml ⟨some "etag2", some "resid1",
          some ⟨some dEx.alertRuleTemplateGuid, some dEx.enabled⟩⟩))).d.enabled =
      dEx.enabled := by
  have h := create_read_roundtrip dEx wEx "nf" (some "etag2") (some "etag3") (some "resid1") rfl
  exact ⟨h.2.2.2.1, h.2.2.2.2.1⟩

/-- C6: the declarative schema exposes exactly the four fields `name`
(string, required, ForceNew, non-empty validation),
`log_analytics_workspace_id` (string, required, ForceNew, workspace-id
validation), `alert_rule_template_guid` (string, required, ForceNew, UUID
validation) and `enabled` (bool, optional, default `true`). -/
theorem schema_surface :
    resourceSchema.length = 4 ∧
    resourceSchema.lookup "name" = some
      { type := .typeString
        required := true
        optional := false
        forceNew := true
        defaultBool := none
        validateFunc := some .stringIsNotEmpty } ∧
    resourceSchema.lookup "log_analytics_workspace_id" = some
      { type := .typeString
        required := true
        optional := false
        forceNew := true
        defaultBool := none
        validateFunc := some .logAnalyticsWorkspaceID } ∧
    resourceSchema.lookup "alert_rule_template_guid" = some
      { type := .typeString
        required := true
        optional := false
        forceNew := true
        defaultBool := none
        validateFunc := some .isUUID } ∧
    resourceSchema.lookup "enabled" = some
      { type := .typeBool
        required := false
        optional := true
        forceNew := false
        defaultBool := some true
        validateFunc := none } := by
  decide

/-- C7 counterexample: a concrete successful create run issues three remote
calls (the existence probe `Get`, the `CreateOrUpdate`, and the delegated
read's `Get`), not exactly one. -/
theorem create_not_single_remote_call :
    (resourceCreateUpdate dEx true (.notFound "nf") none (.ok (.ml ruleEx))).calls.length = 3 ∧
    (resourceCreateUpdate dEx true (.notFound "nf") none (.ok (.ml ruleEx))).calls.length ≠ 1 := by
  decide

/-- C7 (amended): the per-operation deadlines are 30 minutes for create,
update and delete and 5 minutes for read; delete and read issue exactly one
remote call when the stored identifier parses; create/update issue at most
three remote calls, at most one of which is a `CreateOrUpdate` write. -/
theorem op_deadlines_and_call_bounds :
    resourceTimeouts.create = 30 * timeMinute ∧
    resourceTimeouts.read = 5 * timeMinute ∧
    resourceTimeouts.update = 30 * timeMinute ∧
    resourceTimeouts.delete = 30 * timeMinute ∧
    (∀ (d : State) (id : AlertRuleId) (e : Option String),
      parseAlertRuleID d.id = .ok id → (resourceDelete d e).calls.length = 1) ∧
    (∀ (d : State) (id : AlertRuleId) (g : GetResult),
      parseAlertRuleID d.id = .ok id → (resourceRead d g).calls.length = 1) ∧
    (∀ (d : State) (isNew : Bool) (g : GetResult) (c : Option String) (r : GetResult),
      (resourceCreateUpdate d isNew g c r).calls.countP (·.isWrite) ≤ 1 ∧
      (resourceCreateUpdate d isNew g c r).calls.length ≤ 3) := by
  refine ⟨rfl, rfl, rfl, rfl, ?_, ?_, ?_⟩
  · intro d id e h
    unfold resourceDelete
    rw [h]
    cases e <;> simp
  · intro d id g h
    unfold resourceRead
    rw [h]
    cases g with
    | notFound m => simp
    | errOther m => simp
    | ok rule =>
      cases hak : assertAlertRuleKind rule .mlBehaviorAnalytics with
      | error m => simp [hak]
      | ok u => cases hp : rule.asML.properties <;> simp [hak, hp]
  · intro d isNew g c r
    cases hla : d.logAnalyticsWorkspaceId with
    | malformed s =>
      simp [resourceCreateUpdate, hla, LogAnalyticsWorkspaceID]
    | valid w =>
      cases isNew with
      | true =>
        cases g with
        | errOther m =>
          simp [resourceCreateUpdate, hla, LogAnalyticsWorkspaceID, RemoteCall.isWrite]
        | notFound m =>
          cases c with
          | some m2 =>
            simp [resourceCreateUpdate, hla, LogAnalyticsWorkspaceID, GetResult.value,
              alertRuleID, RemoteCall.isWrite]
          | none =>
            simp only [resourceCreateUpdate, hla, LogAnalyticsWorkspaceID, GetResult.value,
              alertRuleID]
            refine cu_calls_bound_aux _ ?_ _ _ r
            rfl
        | ok rule =>
          cases hrid : rule.ruleId with
          | some s =>
            by_cases hs : s = ""
            · subst hs
              cases c with
              | some m2 =>
                simp [resourceCreateUpdate, hla, LogAnalyticsWorkspaceID, GetResult.value,
                  alertRuleID, hrid, RemoteCall.isWrite]
              | none =>
                simp only [resourceCreateUpdate, hla, LogAnalyticsWorkspaceID, GetResult.value,
                  alertRuleID, hrid]
                refine cu_calls_bound_aux _ ?_ _ _ r
                rfl
            · simp [resourceCreateUpdate, hla, LogAnalyticsWorkspaceID, GetResult.value,
                alertRuleID, hrid, hs, RemoteCall.isWrite]
          | none =>
            cases c with
            | some m2 =>
              simp [resourceCreateUpdate, hla, LogAnalyticsWorkspaceID, GetResult.value,
                alertRuleID, hrid, RemoteCall.isWrite]
            | none =>
              simp only [resourceCreateUpdate, hla, LogAnalyticsWorkspaceID, GetResult.value,
                alertRuleID, hrid]
              refine cu_calls_bound_aux _ ?_ _ _ r
              rfl
      | false =>
        cases g with
        | notFound m =>
          simp [resourceCreateUpdate, hla, LogAnalyticsWorkspaceID, RemoteCall.isWrite]
        | errOther m =>
          simp [resourceCreateUpdate, hla, LogAnalyticsWorkspaceID, RemoteCall.isWrite]
        | ok rule =>
          cases hak : assertAlertRuleKind rule .mlBehaviorAnalytics with
          | error m =>
            simp [resourceCreateUpdate, hla, LogAnalyticsWorkspaceID, hak, RemoteCall.isWrite]
          | ok u =>
            cases c with
            | some m2 =>
              simp [resourceCreateUpdate, hla, LogAnalyticsWorkspaceID, hak, RemoteCall.isWrite]
            | none =>
              simp only [resourceCreateUpdate, hla, LogAnalyticsWorkspaceID, hak]
              refine cu_calls_bound_aux _ ?_ _ _ r
              rfl

/-- Witness for C7 (amended) at a concrete delete and read. -/
theorem op_deadlines_and_call_bounds_witness :
    (resourceDelete dExWithId none).calls.length = 1 ∧
    (resourceRead dExWithId (.ok (.ml ruleEx))).calls.length = 1 := by
  have h := op_deadlines_and_call_bounds
  exact ⟨h.2.2.2.2.1 dExWithId (NewAlertRuleID "sub1" "rg1" "ws1" "rule1") none rfl,
    h.2.2.2.2.2.1 dExWithId (NewAlertRuleID "sub1" "rg1" "ws1" "rule1") (.ok (.ml ruleEx)) rfl⟩

/-- C9: on a successful read the `name` and `log_analytics_workspace_id`
state fields are derived solely from the parsed stored identifier: they
equal the identifier's components, and two arbitrary correct-kind remote
responses yield identical values for both fields. -/
theorem read_identity_fields_from_id
    (d : State) (id : AlertRuleId) (r₁ r₂ : MLBehaviorAnalyticsAlertRule)
    (h : parseAlertRuleID d.id = .ok id) :
    (resourceRead d (.ok (.ml r₁))).d.name = id.name ∧
    (resourceRead d (.ok (.ml r₁))).d.logAnalyticsWorkspaceId =
      (NewLogAnalyticsWorkspaceID id.subscriptionId id.resourceGroup id.workspaceName).ID ∧
    (resourceRead d (.ok (.ml r₁))).d.name = (resourceRead d (.ok (.ml r₂))).d.name ∧
    (resourceRead d (.ok (.ml r₁))).d.logAnalyticsWorkspaceId =
      (resourceRead d (.ok (.ml r₂))).d.logAnalyticsWorkspaceId := by
  rw [resourceRead_ok_ml d id r₁ h, resourceRead_ok_ml d id r₂ h]
  cases hp₁ : r₁.properties <;> cases hp₂ : r₂.properties <;> simp

/-- Witness for C9 at two concrete responses differing in content. -/
theorem read_identity_fields_from_id_witness :
    (resourceRead dExWithId (.ok (.ml ruleEx))).d.name = "rule1" ∧
    (resourceRead dExWithId (.ok (.ml ruleEx))).d.logAnalyticsWorkspaceId =
      (resourceRead dExWithId
        (.ok (.ml ⟨none, none, some ⟨some "other-guid", some true⟩⟩))).d.logAnalyticsWorkspaceId := by
  have h := read_identity_fields_from_id dExWithId (NewAlertRuleID "sub1" "rg1" "ws1" "rule1")
    ruleEx ⟨none, none, some ⟨some "other-guid", some true⟩⟩ rfl
  exact ⟨h.1, h.2.2.2⟩

/-- C10: the pre-create probe does not assert the kind discriminant: a
create whose probe returns an existing rule of a different kind (with a
present, non-empty rule identifier) fails with the "already exists"
conflict error, not with a kind-mismatch error, and performs no write. -/
theorem create_probe_ignores_kind
    (d : State) (w : LogAnalyticsWorkspaceId) (rule : BasicAlertRule) (s : String)
    (cuErr : Option String) (readGetResp : GetResult)
    (hw : d.logAnalyticsWorkspaceId = .valid w)
    (_hk : rule.kind ≠ .mlBehaviorAnalytics)
    (hrid : rule.ruleId = some s) (hs : s ≠ "") :
    (resourceCreateUpdate d true (.ok rule) cuErr readGetResp).err =
      some (.importAsExists resourceTypeName s) ∧
    (∀ op i m, (resourceCreateUpdate d true (.ok rule) cuErr readGetResp).err ≠
      some (.wrapped op i m)) ∧
    ∀ c ∈ (resourceCreateUpdate d true (.ok rule) cuErr readGetResp).calls,
      c.isWrite = false := by
  have hmain : (resourceCreateUpdate d true (.ok rule) cuErr readGetResp).err =
      some (.importAsExists resourceTypeName s) ∧
      ∀ c ∈ (resourceCreateUpdate d true (.ok rule) cuErr readGetResp).calls,
        c.isWrite = false := by
    simp [resourceCreateUpdate, hw, LogAnalyticsWorkspaceID, GetResult.value, alertRuleID,
      hrid, hs, RemoteCall.isWrite]
  refine ⟨hmain.1, ?_, hmain.2⟩
  intro op i m
  rw [hmain.1]
  simp

/-- Witness for C10: a concrete create whose probe finds a Fusion-kind rule
fails with the conflict error. -/
theorem create_probe_ignores_kind_witness :
    (resourceCreateUpdate dEx true (.ok (.other .fusion (some "resid1") (some "e")))
      none (.notFound "nf")).err = some (.importAsExists resourceTypeName "resid1") :=
  (create_probe_ignores_kind dEx wEx (.other .fusion (some "resid1") (some "e")) "resid1"
    none (.notFound "nf") rfl (by decide) (by decide) (by decide)).1

/-- C8: every fatal error of any operation is either the pass-through
identifier-parse error (and then the respective identifier indeed failed to
parse) or carries a human-readable operation description together with the
operation's rule identifier (the "already exists" conflict carrying the
existing resource id); and no remote failure is silently swallowed — a
non-404 `Get` failure or a `CreateOrUpdate`/`Delete` failure always
surfaces as an error — except the not-found conditions during read (which
returns no error) and during the pre-create probe. -/
theorem errors_wrapped_and_not_swallowed :
    (∀ (d : State) (isNew : Bool) (g : GetResult) (c : Option String) (r : GetResult)
        (e : ProviderError),
      (resourceCreateUpdate d isNew g c r).err = some e →
      (∃ m, e = .parsePassthrough m ∧ ∃ s, d.logAnalyticsWorkspaceId = .malformed s) ∨
      (∃ op i m, e = .wrapped op i m ∧ ∃ w, d.logAnalyticsWorkspaceId = .valid w ∧
        i = NewAlertRuleID w.subscriptionId w.resourceGroup w.workspaceName d.name) ∨
      (∃ i, e = .importAsExists resourceTypeName i)) ∧
    (∀ (d : State) (g : GetResult) (e : ProviderError),
      (resourceRead d g).err = some e →
      (∃ m, e = .parsePassthrough m ∧ ∃ m2, parseAlertRuleID d.id = .error m2) ∨
      (∃ op i m, e = .wrapped op i m ∧ parseAlertRuleID d.id = .ok i)) ∧
    (∀ (d : State) (x : Option String) (e : ProviderError),
      (resourceDelete d x).err = some e →
      (∃ m, e = .parsePassthrough m ∧ ∃ m2, parseAlertRuleID d.id = .error m2) ∨
      (∃ op i m, e = .wrapped op i m ∧ parseAlertRuleID d.id = .ok i)) ∧
    (∀ (d : State) (isNew : Bool) (m : String) (c : Option String) (r : GetResult),
      (resourceCreateUpdate d isNew (.errOther m) c r).err.isSome = true) ∧
    (∀ (d : State) (isNew : Bool) (g : GetResult) (m : String) (r : GetResult),
      (resourceCreateUpdate d isNew g (some m) r).err.isSome = true) ∧
    (∀ (d : State) (id : AlertRuleId) (m : String),
      parseAlertRuleID d.id = .ok id → (resourceRead d (.errOther m)).err.isSome = true) ∧
    (∀ (d : State) (m : String), (resourceDelete d (some m)).err.isSome = true) ∧
    (∀ (d : State) (id : AlertRuleId) (m : String),
      parseAlertRuleID d.id = .ok id → (resourceRead d (.notFound m)).err = none) := by
  refine ⟨?_, fun d g e h => read_err_shape d g e h,
    fun d x e h => delete_err_shape d x e h, ?_, ?_, ?_, ?_, ?_⟩
  · intro d isNew g c r e h
    cases hla : d.logAnalyticsWorkspaceId with
    | malformed s =>
      simp [resourceCreateUpdate, hla, LogAnalyticsWorkspaceID] at h
      exact Or.inl ⟨_, h.symm, s, rfl⟩
    | valid w =>
      cases isNew with
      | true =>
        cases g with
        | errOther m =>
          simp [resourceCreateUpdate, hla, LogAnalyticsWorkspaceID] at h
          exact Or.inr (Or.inl ⟨_, _, _, h.symm, w, rfl, rfl⟩)
        | notFound m =>
          cases c with
          | some m2 =>
            simp [resourceCreateUpdate, hla, LogAnalyticsWorkspaceID, GetResult.value,
              alertRuleID] at h
            exact Or.inr (Or.inl ⟨_, _, _, h.symm, w, rfl, rfl⟩)
          | none =>
            simp only [resourceCreateUpdate, hla, LogAnalyticsWorkspaceID, GetResult.value,
              alertRuleID] at h
            rcases read_err_shape _ _ _ h with ⟨m1, hm, m2, hp⟩ | ⟨op, i, m1, he, hp⟩
            · simp [parseAlertRuleID, AlertRuleId.ID] at hp
            · simp [parseAlertRuleID, AlertRuleId.ID] at hp
              exact Or.inr (Or.inl ⟨op, i, m1, he, w, rfl, hp.symm⟩)
        | ok rule =>
          cases hrid : rule.ruleId with
          | some s =>
            by_cases hs : s = ""
            · subst hs
              cases c with
              | some m2 =>
                simp [resourceCreateUpdate, hla, LogAnalyticsWorkspaceID, GetResult.value,
                  alertRuleID, hrid] at h
                exact Or.inr (Or.inl ⟨_, _, _, h.symm, w, rfl, rfl⟩)
              | none =>
                simp only [resourceCreateUpdate, hla, LogAnalyticsWorkspaceID, GetResult.value,
                  alertRuleID, hrid] at h
                simp at h
                rcases read_err_shape _ _ _ h with ⟨m1, hm, m2, hp⟩ | ⟨op, i, m1, he, hp⟩
                · simp [parseAlertRuleID, AlertRuleId.ID] at hp
                · simp [parseAlertRuleID, AlertRuleId.ID] at hp
                  exact Or.inr (Or.inl ⟨op, i, m1, he, w, rfl, hp.symm⟩)
            · simp [resourceCreateUpdate, hla, LogAnalyticsWorkspaceID, GetResult.value,
                alertRuleID, hrid, hs] at h
              exact Or.inr (Or.inr ⟨s, h.symm⟩)
          | none =>
            cases c with
            | some m2 =>
              simp [resourceCreateUpdate, hla, LogAnalyticsWorkspaceID, GetResult.value,
                alertRuleID, hrid] at h
              exact Or.inr (Or.inl ⟨_, _, _, h.symm, w, rfl, rfl⟩)
            | none =>
              simp only [resourceCreateUpdate, hla, LogAnalyticsWorkspaceID, GetResult.value,
                alertRuleID, hrid] at h
              rcases read_err_shape _ _ _ h with ⟨m1, hm, m2, hp⟩ | ⟨op, i, m1, he, hp⟩
              · simp [parseAlertRuleID, AlertRuleId.ID] at hp
              · simp [parseAlertRuleID, AlertRuleId.ID] at hp
                exact Or.inr (Or.inl ⟨op, i, m1, he, w, rfl, hp.symm⟩)
      | false =>
        cases g with
        | notFound m =>
          simp [resourceCreateUpdate, hla, LogAnalyticsWorkspaceID] at h
          exact Or.inr (Or.inl ⟨_, _, _, h.symm, w, rfl, rfl⟩)
        | errOther m =>
          simp [resourceCreateUpdate, hla, LogAnalyticsWorkspaceID] at h
          exact Or.inr (Or.inl ⟨_, _, _, h.symm, w, rfl, rfl⟩)
        | ok rule =>
          cases hak : assertAlertRuleKind rule .mlBehaviorAnalytics with
          | error m =>
            simp [resourceCreateUpdate, hla, LogAnalyticsWorkspaceID, hak] at h
            exact Or.inr (Or.inl ⟨_, _, _, h.symm, w, rfl, rfl⟩)
          | ok u =>
            cases c with
            | some m2 =>
              simp [resourceCreateUpdate, hla, LogAnalyticsWorkspaceID, hak] at h
              exact Or.inr (Or.inl ⟨_, _, _, h.symm, w, rfl, rfl⟩)
            | none =>
              simp only [resourceCreateUpdate, hla, LogAnalyticsWorkspaceID, hak] at h
              rcases read_err_shape _ _ _ h with ⟨m1, hm, m2, hp⟩ | ⟨op, i, m1, he, hp⟩
              · simp [parseAlertRuleID, AlertRuleId.ID] at hp
              · simp [parseAlertRuleID, AlertRuleId.ID] at hp
                exact Or.inr (Or.inl ⟨op, i, m1, he, w, rfl, hp.symm⟩)
  · intro d isNew m c r
    cases hla : d.logAnalyticsWorkspaceId with
    | malformed s => simp [resourceCreateUpdate, hla, LogAnalyticsWorkspaceID]
    | valid w =>
      cases isNew <;> simp [resourceCreateUpdate, hla, LogAnalyticsWorkspaceID]
  · intro d isNew g m r
    cases hla : d.logAnalyticsWorkspaceId with
    | malformed s => simp [resourceCreateUpdate, hla, LogAnalyticsWorkspaceID]
    | valid w =>
      cases isNew with
      | true =>
        cases g with
        | errOther m1 => simp [resourceCreateUpdate, hla, LogAnalyticsWorkspaceID]
        | notFound m1 =>
          simp [resourceCreateUpdate, hla, LogAnalyticsWorkspaceID, GetResult.value,
            alertRuleID]
        | ok rule =>
          cases hrid : rule.ruleId with
          | some s =>
            by_cases hs : s = ""
            · subst hs
              simp [resourceCreateUpdate, hla, LogAnalyticsWorkspaceID, GetResult.value,
                alertRuleID, hrid]
            · simp [resourceCreateUpdate, hla, LogAnalyticsWorkspaceID, GetResult.value,
                alertRuleID, hrid, hs]
          | none =>
            simp [resourceCreateUpdate, hla, LogAnalyticsWorkspaceID, GetResult.value,
              alertRuleID, hrid]
      | false =>
        cases g with
        | notFound m1 => simp [resourceCreateUpdate, hla, LogAnalyticsWorkspaceID]
        | errOther m1 => simp [resourceCreateUpdate, hla, LogAnalyticsWorkspaceID]
        | ok rule =>
          cases hak : assertAlertRuleKind rule .mlBehaviorAnalytics with
          | error m1 => simp [resourceCreateUpdate, hla, LogAnalyticsWorkspaceID, hak]
          | ok u => simp [resourceCreateUpdate, hla, LogAnalyticsWorkspaceID, hak]
  · intro d id m h
    unfold resourceRead
    rw [h]
    simp
  · intro d m
    unfold resourceDelete
    cases hp : parseAlertRuleID d.id <;> simp
  · intro d id m h
    unfold resourceRead
    rw [h]

/-- Witness for C8: a concrete failed delete surfaces an error, and a
concrete not-found read is swallowed. -/
theorem errors_wrapped_and_not_swallowed_witness :
    (resourceDelete dExWithId (some "boom")).err.isSome = true ∧
    (resourceRead dExWithId (.notFound "nf")).err = none := by
  have h := errors_wrapped_and_not_swallowed
  exact ⟨h.2.2.2.2.2.2.1 dExWithId "boom",
    h.2.2.2.2.2.2.2 dExWithId (NewAlertRuleID "sub1" "rg1" "ws1" "rule1") "nf" rfl⟩

end SentinelMLBA
